import Mathlib

/-
Verification development for the umbrel system router
(self-update and lifecycle-control subsystem).

The TypeScript source is shallowly embedded below:
  * the module-level mutable registers (systemStatus, updateStatus) become
    explicit state records threaded through the operations;
  * the subprocess and network collaborators become explicit environment
    parameters describing their outcomes;
  * JSON.parse for the structured progress lines is a parameter of the
    line handler (it is platform code, not code of this repository); a
    concrete executable model of it for flat status objects is provided
    for evaluating the handler on concrete inputs.
-/

namespace Umbrel

/-- The value of the UpdateStatus.error field in the source is
boolean-or-string (false means no error, a string is an error message). -/
inductive ErrVal where
  | boolVal : Bool → ErrVal
  | strVal : String → ErrVal
deriving DecidableEq, Repr

/-- JavaScript truthiness of an error value: false and the empty string are
falsy, true and every non-empty string are truthy.  The source tests the
error field with a bare boolean coercion. -/
def ErrVal.truthy : ErrVal → Bool
  | .boolVal b => b
  | .strVal s => !(s.isEmpty)

/-- The UpdateStatus record of the source: running flag, progress from 0 to
100, human-readable description, and boolean-or-string error. -/
structure UpdateStatus where
  running : Bool
  progress : Nat
  description : String
  error : ErrVal
deriving DecidableEq, Repr

/-- A partial UpdateStatus write, as accepted by setUpdateStatus: each field
may be supplied or absent.  Absent fields are untouched by the merge. -/
structure StatusPatch where
  running? : Option Bool := none
  progress? : Option Nat := none
  description? : Option String := none
  error? : Option ErrVal := none
deriving DecidableEq, Repr

/-- setUpdateStatus from the source: a shallow merge by object spread,
updateStatus = \x7b...updateStatus, ...properties\x7d.  A supplied field
replaces the prior value, an absent field keeps it. -/
def setUpdateStatus (s : UpdateStatus) (p : StatusPatch) : UpdateStatus where
  running := p.running?.getD s.running
  progress := p.progress?.getD s.progress
  description := p.description?.getD s.description
  error := p.error?.getD s.error

/-- The idle default UpdateStatus installed by resetUpdateStatus in the
source: not running, zero progress, empty description, error false. -/
def idleUpdateStatus : UpdateStatus where
  running := false
  progress := 0
  description := ""
  error := .boolVal false

/-- The SystemStatus enumeration of the source. -/
inductive SystemStatus where
  | running
  | updating
  | shuttingDown
  | restarting
  | migrating
deriving DecidableEq, Repr

/-- The two process-wide status registers of the source module. -/
structure GlobalState where
  systemStatus : SystemStatus
  updateStatus : UpdateStatus
deriving DecidableEq, Repr

end Umbrel

namespace Umbrel

/- Line splitting.  The source splits every output chunk with
text.split of the newline character; this is modelled on the character
list of the chunk. -/

/-- Split a character list at every occurrence of the separator, JavaScript
String.split semantics: the result is never empty, and a trailing separator
yields a trailing empty fragment. -/
def splitOnChar (c : Char) : List Char → List (List Char)
  | [] => [[]]
  | x :: xs =>
    if x = c then [] :: splitOnChar c xs
    else
      match splitOnChar c xs with
      | [] => [[x]]
      | l :: ls => (x :: l) :: ls

/-- The newline separator used by the chunk handler. -/
def nlChar : Char := '\n'

/-- The fixed marker of structured progress lines in the source. -/
def markerStr : String := "umbrel-update: "

/-- A line consisting of exactly one dot, the mender install progress
signal. -/
def dotLine : List Char := ['.']

/-- The dot-to-progress formula of the source: mender streams 70 dots, and
the handler maps the running dot count onto the 5 to 95 percent band as
min(95, floor(dots / 70 * 90) + 5), all in exact integer arithmetic. -/
def dotProgress (dots : Nat) : Nat :=
  min 95 (dots * 90 / 70 + 5)

/-- The state local to one update attempt that the output handler mutates:
the UpdateStatus register and the menderInstallDots counter (initially 0). -/
structure RunnerState where
  updateStatus : UpdateStatus
  menderInstallDots : Nat
deriving DecidableEq, Repr

/-- One iteration of the line loop in handleUpdateScriptOutput.  A line
starting with the marker has the marker stripped (String.replace of the
first occurrence, which under the startsWith guard is the prefix) and the
remainder parsed as JSON; a successful parse is shallow-merged into
UpdateStatus and a parse error is swallowed.  A line equal to a single dot
increments the dot counter and writes the mapped progress.  Any other line
has no effect. -/
def processLine (pj : String → Option StatusPatch) (st : RunnerState)
    (line : List Char) : RunnerState :=
  let st1 :=
    if markerStr.data.isPrefixOf line then
      match pj (String.mk (line.drop markerStr.data.length)) with
      | some status =>
        { st with updateStatus := setUpdateStatus st.updateStatus status }
      | none => st
    else st
  if line = dotLine then
    let dots := st1.menderInstallDots + 1
    { updateStatus :=
        setUpdateStatus st1.updateStatus { progress? := some (dotProgress dots) },
      menderInstallDots := dots }
  else st1

/-- handleUpdateScriptOutput on one chunk: split the chunk text on newlines
and run the line loop.  No partial-line buffer is carried between chunks. -/
def handleChunk (pj : String → Option StatusPatch) (st : RunnerState)
    (chunk : List Char) : RunnerState :=
  (splitOnChar nlChar chunk).foldl (processLine pj) st

/-- The chunk handler on a String chunk, as delivered by the stdout and
stderr data events. -/
def handleUpdateScriptOutput (pj : String → Option StatusPatch)
    (st : RunnerState) (chunk : String) : RunnerState :=
  handleChunk pj st chunk.data

/-- Processing of the whole delivered output: the chunks arrive in order and
each invokes the handler on the state left by the previous one. -/
def processChunks (pj : String → Option StatusPatch) (st : RunnerState)
    (chunks : List String) : RunnerState :=
  chunks.foldl (handleUpdateScriptOutput pj) st

end Umbrel

namespace Umbrel

/- A concrete executable model of JSON.parse restricted to the flat status
objects the update sub-protocol uses.  The general theorems about the line
handler are parametric in the parse function; this model only serves to
evaluate the handler on concrete output.  It is conservative: whenever it
is unsure (escapes, non-object payloads, type-incorrect field values) it
fails, which leaves the four tracked fields unchanged exactly as the
untyped merge in the source would. -/

/-- JSON whitespace. -/
def isJsonWs (c : Char) : Bool :=
  c = ' ' || c = '\t' || c = '\n' || c = '\r'

/-- Drop leading JSON whitespace. -/
def skipWs : List Char → List Char
  | [] => []
  | c :: cs => if isJsonWs c then skipWs cs else c :: cs

/-- Scan a JSON string body up to the closing quote; escape sequences are
conservatively rejected. -/
def parseStringBody : List Char → List Char → Option (String × List Char)
  | [], _ => none
  | c :: cs, acc =>
    if c = '"' then some (String.mk acc.reverse, cs)
    else if c = '\\' then none
    else parseStringBody cs (c :: acc)

/-- Longest leading run of decimal digits and the remainder. -/
def takeDigits : List Char → List Char × List Char
  | [] => ([], [])
  | c :: cs =>
    if c.isDigit then
      let (ds, r) := takeDigits cs
      (c :: ds, r)
    else ([], c :: cs)

/-- Decimal value of a digit run. -/
def digitsToNat (ds : List Char) : Nat :=
  ds.foldl (fun n c => n * 10 + (c.toNat - 48)) 0

/-- A primitive JSON value: boolean, nonnegative integer, or string. -/
inductive JVal where
  | jb : Bool → JVal
  | jn : Nat → JVal
  | js : String → JVal
deriving DecidableEq, Repr

/-- Literal true. -/
def trueLit : String := "true"

/-- Literal false. -/
def falseLit : String := "false"

/-- Parse one primitive JSON value. -/
def parseJVal (cs0 : List Char) : Option (JVal × List Char) :=
  let cs := skipWs cs0
  if trueLit.data.isPrefixOf cs then some (.jb true, cs.drop trueLit.data.length)
  else if falseLit.data.isPrefixOf cs then some (.jb false, cs.drop falseLit.data.length)
  else
    match cs with
    | '"' :: rest =>
      match parseStringBody rest [] with
      | some (s, r) => some (.js s, r)
      | none => none
    | c :: _ =>
      if c.isDigit then
        let (ds, r) := takeDigits cs
        some (.jn (digitsToNat ds), r)
      else none
    | [] => none

/-- Key of the running field. -/
def runningKey : String := "running"

/-- Key of the progress field. -/
def progressKey : String := "progress"

/-- Key of the description field. -/
def descriptionKey : String := "description"

/-- Key of the error field. -/
def errorKey : String := "error"

/-- Record one key-value pair into the patch.  Later duplicates override
earlier ones as in JSON.parse; unknown keys do not touch the four tracked
fields; a type-incorrect value is conservatively rejected. -/
def applyPair (acc : StatusPatch) (key : String) (v : JVal) : Option StatusPatch :=
  if key = runningKey then
    match v with
    | .jb b => some { acc with running? := some b }
    | _ => none
  else if key = progressKey then
    match v with
    | .jn n => some { acc with progress? := some n }
    | _ => none
  else if key = descriptionKey then
    match v with
    | .js s => some { acc with description? := some s }
    | _ => none
  else if key = errorKey then
    match v with
    | .jb b => some { acc with error? := some (.boolVal b) }
    | .js s => some { acc with error? := some (.strVal s) }
    | _ => none
  else some acc

/-- Parse the members of a JSON object after the opening brace, ending at
the closing brace; fuel bounds the recursion. -/
def parseMembers : Nat → List Char → StatusPatch → Option (StatusPatch × List Char)
  | 0, _, _ => none
  | fuel + 1, cs0, acc =>
    match skipWs cs0 with
    | '"' :: rest =>
      match parseStringBody rest [] with
      | none => none
      | some (key, r1) =>
        match skipWs r1 with
        | ':' :: r2 =>
          match parseJVal r2 with
          | none => none
          | some (v, r3) =>
            match applyPair acc key v with
            | none => none
            | some acc2 =>
              match skipWs r3 with
              | ',' :: r4 => parseMembers fuel r4 acc2
              | '\x7d' :: r4 => some (acc2, r4)
              | _ => none
        | _ => none
    | _ => none

/-- The concrete model of JSON.parse on a status payload: a flat JSON
object over the four status keys, yielding the patch the source would
merge. -/
def parseStatusJson (s : String) : Option StatusPatch :=
  match skipWs s.data with
  | '\x7b' :: rest =>
    match skipWs rest with
    | '\x7d' :: r => if (skipWs r).isEmpty then some {} else none
    | _ =>
      match parseMembers (rest.length + 1) rest {} with
      | some (acc, r) => if (skipWs r).isEmpty then some (acc) else none
      | none => none
  | _ => none

end Umbrel

namespace Umbrel

/- The update mutation.  Network calls, the subprocess exit and the
delivered output are an explicit environment; the stop and reboot
collaborators are recorded as trace actions. -/

/-- The latest-release metadata returned by getLatestRelease: version,
release notes, and an optional update script URL. -/
structure LatestRelease where
  version : String
  releaseNotes : String
  updateScript : Option String
deriving DecidableEq, Repr

/-- The environment of one update attempt: the outcome of the release
metadata fetch, the outcome of the script download, the output chunks the
subprocess delivers, and whether the subprocess exits successfully. -/
structure UpdateEnv where
  latestRelease : Except String LatestRelease
  scriptFetch : Except String String
  outputChunks : List String
  exitSuccess : Bool

/-- Observable actions of the update mutation, in program order: register
writes, the streamed output handling, stopping the owning process, and the
reboot command. -/
inductive UpdateAction where
  | setSystem (s : SystemStatus)
  | setStatus (p : StatusPatch)
  | resetStatus
  | handleOutput (chunks : List String)
  | stopUmbreld
  | reboot
deriving DecidableEq, Repr

/-- The initial status write of the update mutation. -/
def startPatch : StatusPatch where
  running? := some true
  progress? := some 5
  description? := some ("Updating...")
  error? := some (.boolVal false)

/-- The status write made when the release metadata has no update script. -/
def noScriptPatch : StatusPatch where
  error? := some (.strVal ("No update script found"))

/-- The generic failure message applied when no useful error was already
reported. -/
def updateFailedPatch : StatusPatch where
  error? := some (.strVal ("Update failed"))

/-- The final status write of the success path. -/
def progress95Patch : StatusPatch where
  progress? := some 95

/-- The catch block of the update mutation: keep a truthy error already in
the register (else write the generic message), remember the error, reset
the status to idle, re-apply only the error, and set the system status back
to running. -/
def catchBlock (g : GlobalState) : GlobalState × List UpdateAction :=
  let (g1, t1) :=
    if g.updateStatus.error.truthy then (g, ([] : List UpdateAction))
    else ({ g with updateStatus := setUpdateStatus g.updateStatus updateFailedPatch },
          [UpdateAction.setStatus updateFailedPatch])
  let errorStatus := g1.updateStatus.error
  let patch : StatusPatch := { error? := some errorStatus }
  ({ systemStatus := .running, updateStatus := setUpdateStatus idleUpdateStatus patch },
   t1 ++ [.resetStatus, .setStatus patch, .setSystem .running])

/-- The outcome of one update attempt: the final registers, the action
trace, and the boolean returned to the caller. -/
structure UpdateResult where
  state : GlobalState
  trace : List UpdateAction
  ok : Bool

/-- The update mutation of the source.  Set the system status to updating
and the start status; fetch the release metadata; fail when it has no
update script; download the script; run it, handling its output chunks
line by line; on a failed exit (or any earlier fatal error) run the catch
block and return false; on success write progress 95, stop the owning
process, reboot, and return true. -/
def update (pj : String → Option StatusPatch) (env : UpdateEnv)
    (g0 : GlobalState) : UpdateResult :=
  let g1 : GlobalState :=
    { systemStatus := .updating, updateStatus := setUpdateStatus g0.updateStatus startPatch }
  let t1 : List UpdateAction := [.setSystem .updating, .setStatus startPatch]
  match env.latestRelease with
  | .error _ =>
    let c := catchBlock g1
    { state := c.1, trace := t1 ++ c.2, ok := false }
  | .ok release =>
    match release.updateScript with
    | none =>
      let g1b : GlobalState :=
        { g1 with updateStatus := setUpdateStatus g1.updateStatus noScriptPatch }
      let c := catchBlock g1b
      { state := c.1, trace := t1 ++ [.setStatus noScriptPatch] ++ c.2, ok := false }
    | some _url =>
      match env.scriptFetch with
      | .error _ =>
        let c := catchBlock g1
        { state := c.1, trace := t1 ++ c.2, ok := false }
      | .ok _contents =>
        let rs := processChunks pj ⟨g1.updateStatus, 0⟩ env.outputChunks
        let g3 : GlobalState := { g1 with updateStatus := rs.updateStatus }
        let t3 := t1 ++ [UpdateAction.handleOutput env.outputChunks]
        if env.exitSuccess then
          let g4 : GlobalState :=
            { g3 with updateStatus := setUpdateStatus g3.updateStatus progress95Patch }
          { state := g4,
            trace := t3 ++ [.setStatus progress95Patch, .stopUmbreld, .reboot],
            ok := true }
        else
          let c := catchBlock g3
          { state := c.1, trace := t3 ++ c.2, ok := false }

/-- The fixed path of the hidden-service hostname file under the data
directory. -/
def torHostnamePath (dataDirectory : String) : String :=
  dataDirectory ++ "/tor/data/web/hostname"

/-- The hiddenService query: read the hostname file and return its
contents, or the empty string on any read failure.  The file system is an
explicit map from path to read outcome. -/
def hiddenService (dataDirectory : String)
    (fs : String → Except String String) : String :=
  match fs (torHostnamePath dataDirectory) with
  | .ok contents => contents
  | .error _ => ""

/-- The state visible to the factoryReset mutation: the data directory and
the current reset-progress snapshot (its type is the external progress
schema, kept abstract). -/
structure ResetWorld (σ : Type) where
  dataDirectory : String
  factoryResetDemoState : σ

/-- Observable action of the factoryReset mutation: starting the
asynchronous reset on a data directory. -/
inductive ResetAction where
  | startReset (dataDirectory : String)
deriving DecidableEq, Repr

/-- The error raised by factoryReset on an invalid password. -/
inductive TrpcError where
  | unauthorized (message : String)
deriving DecidableEq, Repr

/-- The factoryReset mutation: validate the password through the external
authentication collaborator; on failure raise unauthorized having started
nothing (the action list is empty, no state is mutated); on success start
the asynchronous reset on the data directory and return the current
progress snapshot at once, without waiting for the reset to finish. -/
def factoryReset {σ : Type} (validatePassword : String → Bool)
    (password : String) (w : ResetWorld σ) :
    Except TrpcError σ × List ResetAction :=
  if !(validatePassword password) then (.error (.unauthorized ("Invalid password")), [])
  else (.ok w.factoryResetDemoState, [.startReset w.dataDirectory])

end Umbrel

namespace Umbrel

/-- The update attempt fails exactly when the metadata fetch errors, the
metadata has no update script, the script download errors, or the
subprocess exits unsuccessfully; this mirrors the branch structure of
update. -/
def envFails (env : UpdateEnv) : Bool :=
  match env.latestRelease with
  | .error _ => true
  | .ok release =>
    match release.updateScript with
    | none => true
    | some _ =>
      match env.scriptFetch with
      | .error _ => true
      | .ok _ => !env.exitSuccess

/-- A concrete runner state used to evaluate the handler: running is true,
progress is 7, description is nonempty, no error, no dots counted yet. -/
def rsDemo : RunnerState :=
  ⟨⟨true, 7, "x", .boolVal false⟩, 0⟩

/-- A concrete environment whose update attempt succeeds. -/
def envOkDemo : UpdateEnv where
  latestRelease := .ok ⟨"1.0.0", "notes", some ("https://example.invalid/update.sh")⟩
  scriptFetch := .ok ("script body")
  outputChunks := []
  exitSuccess := true

/-- A concrete environment whose release metadata has no update script. -/
def envNoScriptDemo : UpdateEnv where
  latestRelease := .ok ⟨"1.0.0", "notes", none⟩
  scriptFetch := .ok ("script body")
  outputChunks := []
  exitSuccess := true

/-- A concrete environment whose subprocess exits unsuccessfully with no
structured error reported. -/
def envExitFailDemo : UpdateEnv where
  latestRelease := .ok ⟨"1.0.0", "notes", some ("https://example.invalid/update.sh")⟩
  scriptFetch := .ok ("script body")
  outputChunks := [".\n"]
  exitSuccess := false

/-- A concrete initial register state: system running, status idle. -/
def gDemo : GlobalState :=
  ⟨.running, idleUpdateStatus⟩

end Umbrel

namespace Umbrel

/-- The splitter never returns an empty fragment list. -/
theorem splitOnChar_ne_nil (c : Char) (xs : List Char) : splitOnChar c xs ≠ [] := by
  induction xs with
  | nil => simp [splitOnChar]
  | cons x xs ih =>
    by_cases h : x = c
    · simp [splitOnChar, h]
    · simp only [splitOnChar, h, if_false]
      cases hs : splitOnChar c xs with
      | nil => exact absurd hs ih
      | cons l ls => simp

/-- Splitting distributes over an explicit separator occurrence. -/
theorem splitOnChar_append_sep (c : Char) (xs ys : List Char) :
    splitOnChar c (xs ++ c :: ys) = splitOnChar c xs ++ splitOnChar c ys := by
  induction xs with
  | nil => simp [splitOnChar]
  | cons x xs ih =>
    by_cases h : x = c
    · simp [splitOnChar, h, ih]
    · simp only [List.cons_append, splitOnChar, h, if_false, ih]
      cases hs : splitOnChar c xs with
      | nil => exact absurd hs (splitOnChar_ne_nil c xs)
      | cons l ls => simp [ih, hs]

/-- A fragment list without the separator is the single whole fragment. -/
theorem splitOnChar_eq_single (c : Char) (xs : List Char) (h : c ∉ xs) :
    splitOnChar c xs = [xs] := by
  induction xs with
  | nil => simp [splitOnChar]
  | cons x xs ih =>
    have hx : ¬(x = c) := fun hxc => h (hxc ▸ List.mem_cons_self x xs)
    have hxs : c ∉ xs := fun hm => h (List.mem_cons_of_mem x hm)
    simp only [splitOnChar, hx, if_false, ih hxs]

/-- The empty line matches neither recognized format and has no effect. -/
theorem processLine_nil (pj : String → Option StatusPatch) (st : RunnerState) :
    processLine pj st [] = st := by
  have h1 : markerStr.data.isPrefixOf ([] : List Char) = false := by decide
  have h2 : ([] : List Char) ≠ dotLine := by decide
  simp [processLine, h1, h2]

end Umbrel

namespace Umbrel

/-- A marker-prefixed line is longer than the single-dot line. -/
theorem marker_line_ne_dot (line : List Char)
    (h : markerStr.data.isPrefixOf line = true) : line ≠ dotLine := by
  intro heq
  rw [heq] at h
  exact absurd h (by decide)

/-- A marker line whose payload fails to parse has no effect at all. -/
theorem processLine_marker_bad (pj : String → Option StatusPatch)
    (st : RunnerState) (line : List Char)
    (h : markerStr.data.isPrefixOf line = true)
    (hp : pj (String.mk (line.drop markerStr.data.length)) = none) :
    processLine pj st line = st := by
  have hne := marker_line_ne_dot line h
  simp only [processLine, h, if_true, if_neg hne]
  rw [hp]

/-- A marker line whose payload parses is shallow-merged into the status
register; the dot counter is untouched. -/
theorem processLine_marker_ok (pj : String → Option StatusPatch)
    (st : RunnerState) (line : List Char) (p : StatusPatch)
    (h : markerStr.data.isPrefixOf line = true)
    (hp : pj (String.mk (line.drop markerStr.data.length)) = some p) :
    processLine pj st line =
      { st with updateStatus := setUpdateStatus st.updateStatus p } := by
  have hne := marker_line_ne_dot line h
  simp only [processLine, h, if_true, if_neg hne]
  rw [hp]

/-- The dot line is recognized: the counter is incremented and only the
progress field is rewritten, to the value of the formula at the new count. -/
theorem processLine_dot (pj : String → Option StatusPatch) (st : RunnerState) :
    processLine pj st dotLine =
      ⟨⟨st.updateStatus.running, dotProgress (st.menderInstallDots + 1),
        st.updateStatus.description, st.updateStatus.error⟩,
       st.menderInstallDots + 1⟩ := by
  have h1 : markerStr.data.isPrefixOf dotLine = false := by decide
  simp [processLine, h1, setUpdateStatus]

/-- A line of neither recognized format has no effect. -/
theorem processLine_other (pj : String → Option StatusPatch)
    (st : RunnerState) (line : List Char)
    (h : markerStr.data.isPrefixOf line = false) (hd : line ≠ dotLine) :
    processLine pj st line = st := by
  simp [processLine, h, hd]

/-- The dot counter never decreases across one line. -/
theorem processLine_dots_mono (pj : String → Option StatusPatch)
    (st : RunnerState) (line : List Char) :
    st.menderInstallDots ≤ (processLine pj st line).menderInstallDots := by
  by_cases hd : line = dotLine
  · subst hd
    rw [processLine_dot]
    exact Nat.le_succ _
  · cases h : markerStr.data.isPrefixOf line with
    | false => rw [processLine_other pj st line h hd]
    | true =>
      cases hp : pj (String.mk (line.drop markerStr.data.length)) with
      | none => rw [processLine_marker_bad pj st line h hp]
      | some p => rw [processLine_marker_ok pj st line p h hp]

/-- The dot counter never decreases across a fold of the line loop. -/
theorem foldl_dots_mono {α : Type} (f : RunnerState → α → RunnerState)
    (hf : ∀ s a, s.menderInstallDots ≤ (f s a).menderInstallDots) :
    ∀ (l : List α) (s : RunnerState),
      s.menderInstallDots ≤ (l.foldl f s).menderInstallDots := by
  intro l
  induction l with
  | nil => intro s; exact le_refl _
  | cons x xs ih => intro s; exact le_trans (hf s x) (ih (f s x))

/-- The dot counter never decreases across a chunk. -/
theorem handleUpdateScriptOutput_dots_mono (pj : String → Option StatusPatch)
    (st : RunnerState) (chunk : String) :
    st.menderInstallDots ≤
      (handleUpdateScriptOutput pj st chunk).menderInstallDots :=
  foldl_dots_mono (processLine pj) (processLine_dots_mono pj) _ st

end Umbrel

namespace Umbrel

/-- The catch block always ends with system running and an idle status
carrying the preserved or generic error. -/
theorem catchBlock_state (g : GlobalState) :
    (catchBlock g).1 =
      ⟨.running, ⟨false, 0, "",
        if g.updateStatus.error.truthy then g.updateStatus.error
        else .strVal ("Update failed")⟩⟩ := by
  cases h : g.updateStatus.error.truthy <;>
    simp [catchBlock, h, setUpdateStatus, idleUpdateStatus, updateFailedPatch]

/-- Claim C3: every partial UpdateStatus write is a shallow merge: each
field named in the patch takes the supplied value, each field not named
keeps its prior value, and merging a progress-only patch into a populated
record changes progress alone. -/
theorem C3_shallow_merge :
    (∀ (s : UpdateStatus) (p : StatusPatch) (b : Bool),
       p.running? = some b → (setUpdateStatus s p).running = b) ∧
    (∀ (s : UpdateStatus) (p : StatusPatch),
       p.running? = none → (setUpdateStatus s p).running = s.running) ∧
    (∀ (s : UpdateStatus) (p : StatusPatch) (n : Nat),
       p.progress? = some n → (setUpdateStatus s p).progress = n) ∧
    (∀ (s : UpdateStatus) (p : StatusPatch),
       p.progress? = none → (setUpdateStatus s p).progress = s.progress) ∧
    (∀ (s : UpdateStatus) (p : StatusPatch) (d : String),
       p.description? = some d → (setUpdateStatus s p).description = d) ∧
    (∀ (s : UpdateStatus) (p : StatusPatch),
       p.description? = none → (setUpdateStatus s p).description = s.description) ∧
    (∀ (s : UpdateStatus) (p : StatusPatch) (e : ErrVal),
       p.error? = some e → (setUpdateStatus s p).error = e) ∧
    (∀ (s : UpdateStatus) (p : StatusPatch),
       p.error? = none → (setUpdateStatus s p).error = s.error) ∧
    setUpdateStatus ⟨true, 5, "x", .boolVal false⟩ ⟨none, some 10, none, none⟩ =
      ⟨true, 10, "x", .boolVal false⟩ :=
  ⟨fun _ _ _ h => by simp [setUpdateStatus, h],
   fun _ _ h => by simp [setUpdateStatus, h],
   fun _ _ _ h => by simp [setUpdateStatus, h],
   fun _ _ h => by simp [setUpdateStatus, h],
   fun _ _ _ h => by simp [setUpdateStatus, h],
   fun _ _ h => by simp [setUpdateStatus, h],
   fun _ _ _ h => by simp [setUpdateStatus, h],
   fun _ _ h => by simp [setUpdateStatus, h],
   by decide⟩

/-- Witness for claim C3 at the concrete merge of the claim. -/
theorem C3_shallow_merge_witness :
    (setUpdateStatus ⟨true, 5, "x", .boolVal false⟩ ⟨none, some 10, none, none⟩).progress = 10 ∧
    (setUpdateStatus ⟨true, 5, "x", .boolVal false⟩ ⟨none, some 10, none, none⟩).running = true ∧
    (setUpdateStatus ⟨true, 5, "x", .boolVal false⟩ ⟨none, some 10, none, none⟩).description = "x" :=
  ⟨C3_shallow_merge.2.2.1 _ _ 10 rfl,
   C3_shallow_merge.2.1 _ _ rfl,
   C3_shallow_merge.2.2.2.2.2.1 _ _ rfl⟩

/-- Claim C9: the hiddenService query never throws: it is a total function
of the read outcome, returning the file contents on success and the empty
string on any read failure. -/
theorem C9_hidden_service (dataDirectory : String)
    (fs : String → Except String String) :
    (∀ s, fs (torHostnamePath dataDirectory) = .ok s →
       hiddenService dataDirectory fs = s) ∧
    (∀ e, fs (torHostnamePath dataDirectory) = .error e →
       hiddenService dataDirectory fs = "") := by
  constructor
  · intro s h
    simp [hiddenService, h]
  · intro e h
    simp [hiddenService, h]

/-- Witness for claim C9 on an absent file. -/
theorem C9_hidden_service_witness :
    hiddenService ("/data") (fun _ => .error ("ENOENT")) = "" :=
  (C9_hidden_service ("/data") (fun _ => .error ("ENOENT"))).2 ("ENOENT") rfl

/-- Claim C8: factoryReset validates the password first; on failure it
raises unauthorized and starts nothing (no state mutation), on success it
starts the asynchronous reset on the data directory and returns the
current progress snapshot at once. -/
theorem C8_factory_reset {σ : Type} (validatePassword : String → Bool)
    (password : String) (w : ResetWorld σ) :
    (validatePassword password = false →
       factoryReset validatePassword password w =
         (.error (.unauthorized ("Invalid password")), [])) ∧
    (validatePassword password = true →
       factoryReset validatePassword password w =
         (.ok w.factoryResetDemoState, [.startReset w.dataDirectory])) := by
  constructor <;> intro h <;> simp [factoryReset, h]

/-- Witness for claim C8 at a concrete password check. -/
theorem C8_factory_reset_witness :
    factoryReset (fun s => s == ("secret")) ("wrong") (⟨"/data", 0⟩ : ResetWorld Nat) =
      (.error (.unauthorized ("Invalid password")), []) ∧
    factoryReset (fun s => s == ("secret")) ("secret") (⟨"/data", 0⟩ : ResetWorld Nat) =
      (.ok 0, [.startReset ("/data")]) :=
  ⟨(C8_factory_reset (fun s => s == ("secret")) ("wrong") ⟨"/data", 0⟩).1 (by decide),
   (C8_factory_reset (fun s => s == ("secret")) ("secret") ⟨"/data", 0⟩).2 (by decide)⟩

end Umbrel

namespace Umbrel

/-- Claim C1: a line of exactly one dot increments the install-progress
counter and sets progress to min(95, floor(dots / 70 * 90) + 5), leaving
every other UpdateStatus field untouched; the formula yields 50 at 35
dots, 95 at 70 dots, and caps an over-count of 140 at 95; a line that is
neither a dot nor a marker line leaves the state untouched, so without a
dot the formula is never invoked and progress keeps its prior value. -/
theorem C1_dot_progress :
    (∀ (pj : String → Option StatusPatch) (st : RunnerState),
       processLine pj st dotLine =
         ⟨⟨st.updateStatus.running, dotProgress (st.menderInstallDots + 1),
           st.updateStatus.description, st.updateStatus.error⟩,
          st.menderInstallDots + 1⟩) ∧
    dotProgress 35 = 50 ∧ dotProgress 70 = 95 ∧ dotProgress 140 = 95 ∧
    (∀ (pj : String → Option StatusPatch) (st : RunnerState) (line : List Char),
       markerStr.data.isPrefixOf line = false → line ≠ dotLine →
       processLine pj st line = st) :=
  ⟨processLine_dot, by decide, by decide, by decide, processLine_other⟩

/-- Witness for claim C1: one dot moves the demo state to progress 6 and
one dot counted; a plain line changes nothing. -/
theorem C1_dot_progress_witness :
    processLine parseStatusJson rsDemo ['a'] = rsDemo ∧
    processLine parseStatusJson rsDemo dotLine =
      ⟨⟨true, 6, "x", .boolVal false⟩, 1⟩ :=
  ⟨C1_dot_progress.2.2.2.2 parseStatusJson rsDemo ['a'] (by decide) (by decide),
   by
     rw [C1_dot_progress.1 parseStatusJson rsDemo]
     decide⟩

/-- Claim C10: the dot-driven progress sequence is monotone and bounded:
the formula is monotone in the dot count, never exceeds 95, and the
per-attempt dot counter only ever increases across the delivered output. -/
theorem C10_dot_monotone :
    (∀ a b : Nat, a ≤ b → dotProgress a ≤ dotProgress b) ∧
    (∀ d : Nat, dotProgress d ≤ 95) ∧
    (∀ (pj : String → Option StatusPatch) (st : RunnerState)
       (chunks : List String),
       st.menderInstallDots ≤ (processChunks pj st chunks).menderInstallDots) := by
  refine ⟨?_, ?_, ?_⟩
  · intro a b h
    unfold dotProgress
    exact min_le_min (le_refl 95)
      (Nat.add_le_add_right (Nat.div_le_div_right (Nat.mul_le_mul_right 90 h)) 5)
  · intro d
    exact min_le_left _ _
  · intro pj st chunks
    exact foldl_dots_mono (handleUpdateScriptOutput pj)
      (fun s a => handleUpdateScriptOutput_dots_mono pj s a) chunks st

/-- Witness for claim C10 at concrete dot counts and concrete output. -/
theorem C10_dot_monotone_witness :
    dotProgress 3 ≤ dotProgress 5 ∧ dotProgress 200 ≤ 95 ∧
    rsDemo.menderInstallDots ≤
      (processChunks parseStatusJson rsDemo [".\n.\n"]).menderInstallDots :=
  ⟨C10_dot_monotone.1 3 5 (by decide), C10_dot_monotone.2.1 200,
   C10_dot_monotone.2.2 parseStatusJson rsDemo [".\n.\n"]⟩

/-- Claim C6: a marker line whose payload fails to parse raises nothing,
leaves the whole state unchanged, and subsequent lines are still
processed; a marker line whose payload parses as a partial status is
shallow-merged into UpdateStatus. -/
theorem C6_marker_lines :
    (∀ (pj : String → Option StatusPatch) (st : RunnerState) (line : List Char),
       markerStr.data.isPrefixOf line = true →
       pj (String.mk (line.drop markerStr.data.length)) = none →
       processLine pj st line = st) ∧
    (∀ (pj : String → Option StatusPatch) (st : RunnerState) (line : List Char)
       (p : StatusPatch),
       markerStr.data.isPrefixOf line = true →
       pj (String.mk (line.drop markerStr.data.length)) = some p →
       processLine pj st line =
         { st with updateStatus := setUpdateStatus st.updateStatus p }) ∧
    (∀ (pj : String → Option StatusPatch) (st : RunnerState)
       (line rest : List Char),
       markerStr.data.isPrefixOf line = true →
       pj (String.mk (line.drop markerStr.data.length)) = none →
       nlChar ∉ line →
       handleChunk pj st (line ++ nlChar :: rest) = handleChunk pj st rest) := by
  refine ⟨processLine_marker_bad, processLine_marker_ok, ?_⟩
  intro pj st line rest h hp hnl
  unfold handleChunk
  rw [splitOnChar_append_sep, List.foldl_append,
    splitOnChar_eq_single nlChar line hnl]
  simp only [List.foldl_cons, List.foldl_nil]
  rw [processLine_marker_bad pj st line h hp]

/-- Witness for claim C6: a malformed payload leaves the demo state as it
was, a well-formed payload merges progress 42. -/
theorem C6_marker_lines_witness :
    processLine parseStatusJson rsDemo (String.data ("umbrel-update: not-json")) = rsDemo ∧
    processLine parseStatusJson rsDemo
        (String.data ("umbrel-update: \x7b\"progress\": 42\x7d")) =
      ⟨⟨true, 42, "x", .boolVal false⟩, 0⟩ :=
  ⟨C6_marker_lines.1 parseStatusJson rsDemo _ (by decide) (by decide),
   by
     rw [C6_marker_lines.2.1 parseStatusJson rsDemo
           (String.data ("umbrel-update: \x7b\"progress\": 42\x7d"))
           ⟨none, some 42, none, none⟩ (by decide) (by decide)]
     decide⟩

end Umbrel

namespace Umbrel

/-- Counterexample to claim C2: the recognized line
umbrel-update: \x7b"running":false\x7d delivered split across two chunks
is not reassembled; its merge is lost (the state is unchanged), while the
same text delivered in one chunk merges running to false. -/
theorem C2_counterexample :
    processChunks parseStatusJson rsDemo
        ["umbrel-update: \x7b\"running\"", ":false\x7d\n"] = rsDemo ∧
    (processChunks parseStatusJson rsDemo
        ["umbrel-update: \x7b\"running\":false\x7d\n"]).updateStatus.running = false := by
  decide

/-- Claim C2 (amended): a chunk containing several complete lines yields
each line's effect in order, and splitting the delivered output into
chunks exactly at a newline boundary leaves the interpretation unchanged;
but there is no reassembly of partial lines, so a recognized line split
across two chunks is treated as two separate fragments. -/
theorem C2_chunk_boundaries :
    (∀ (pj : String → Option StatusPatch) (st : RunnerState) (a b : List Char),
       handleChunk pj st (a ++ nlChar :: b) =
         handleChunk pj (handleChunk pj st (a ++ [nlChar])) b) ∧
    (∀ (pj : String → Option StatusPatch) (st : RunnerState) (a b : List Char),
       processChunks pj st [String.mk (a ++ nlChar :: b)] =
         processChunks pj st [String.mk (a ++ [nlChar]), String.mk b]) := by
  have key : ∀ (pj : String → Option StatusPatch) (st : RunnerState)
      (a b : List Char),
      handleChunk pj st (a ++ nlChar :: b) =
        handleChunk pj (handleChunk pj st (a ++ [nlChar])) b := by
    intro pj st a b
    unfold handleChunk
    have h1 : (a : List Char) ++ [nlChar] = a ++ nlChar :: [] := rfl
    rw [splitOnChar_append_sep, List.foldl_append, h1, splitOnChar_append_sep]
    simp only [splitOnChar, List.foldl_append, List.foldl_cons, List.foldl_nil]
    rw [processLine_nil]
  refine ⟨key, ?_⟩
  intro pj st a b
  simp only [processChunks, List.foldl_cons, List.foldl_nil,
    handleUpdateScriptOutput]
  exact key pj st a b

end Umbrel

namespace Umbrel

/-- The error the catch block leaves behind is always truthy: either the
already truthy message it preserved or the generic nonempty message. -/
theorem catch_error_truthy (g : GlobalState) :
    (catchBlock g).1.updateStatus.error.truthy = true := by
  rw [catchBlock_state]
  cases h : g.updateStatus.error.truthy with
  | false =>
    rw [if_neg (by decide : ¬(false = true))]
    decide
  | true => simp [h]

/-- Every failing environment drives update through the catch block and
returns false. -/
theorem update_fails_eq (pj : String → Option StatusPatch) (env : UpdateEnv)
    (g0 : GlobalState) (h : envFails env = true) :
    ∃ g1, (update pj env g0).state = (catchBlock g1).1 ∧
      (update pj env g0).ok = false := by
  obtain ⟨lr, sf, chunks, ex⟩ := env
  cases lr with
  | error e =>
    exact ⟨⟨.updating, setUpdateStatus g0.updateStatus startPatch⟩, rfl, rfl⟩
  | ok release =>
    obtain ⟨version, notes, script⟩ := release
    cases script with
    | none =>
      exact ⟨⟨.updating,
        setUpdateStatus (setUpdateStatus g0.updateStatus startPatch) noScriptPatch⟩,
        rfl, rfl⟩
    | some url =>
      cases sf with
      | error e =>
        exact ⟨⟨.updating, setUpdateStatus g0.updateStatus startPatch⟩, rfl, rfl⟩
      | ok body =>
        cases ex with
        | true => simp [envFails] at h
        | false =>
          exact ⟨⟨.updating,
            (processChunks pj ⟨setUpdateStatus g0.updateStatus startPatch, 0⟩
              chunks).updateStatus⟩,
            rfl, rfl⟩

/-- Claim C4: whenever the update flow fails the operation returns false,
SystemState is back to running, and UpdateStatus is reset to running
false, progress 0, empty description, with an error that is the message
already present when the catch ran if that was truthy, and the generic
message otherwise, hence never false or empty. -/
theorem C4_failure_path :
    (∀ (pj : String → Option StatusPatch) (env : UpdateEnv) (g0 : GlobalState),
       envFails env = true →
       (update pj env g0).ok = false ∧
       (update pj env g0).state.systemStatus = .running ∧
       (update pj env g0).state.updateStatus.running = false ∧
       (update pj env g0).state.updateStatus.progress = 0 ∧
       (update pj env g0).state.updateStatus.description = "" ∧
       (update pj env g0).state.updateStatus.error.truthy = true) ∧
    (∀ g : GlobalState, g.updateStatus.error.truthy = true →
       (catchBlock g).1.updateStatus.error = g.updateStatus.error) ∧
    (∀ g : GlobalState, g.updateStatus.error.truthy = false →
       (catchBlock g).1.updateStatus.error = .strVal ("Update failed")) := by
  refine ⟨?_, ?_, ?_⟩
  · intro pj env g0 h
    obtain ⟨g1, hs, hok⟩ := update_fails_eq pj env g0 h
    refine ⟨hok, ?_, ?_, ?_, ?_, ?_⟩ <;> rw [hs]
    · rw [catchBlock_state]
    · rw [catchBlock_state]
    · rw [catchBlock_state]
    · rw [catchBlock_state]
    · exact catch_error_truthy g1
  · intro g h
    rw [catchBlock_state]
    simp [h]
  · intro g h
    rw [catchBlock_state]
    simp [h]

/-- Witness for claim C4: a subprocess that exits unsuccessfully with no
structured error leaves a reset status with the generic error; the catch
preserves a truthy message and substitutes the generic one for a falsy
one. -/
theorem C4_failure_path_witness :
    (update parseStatusJson envExitFailDemo gDemo).ok = false ∧
    (update parseStatusJson envExitFailDemo gDemo).state.updateStatus.error.truthy = true ∧
    (catchBlock ⟨.updating, ⟨true, 40, "u", .strVal ("Disk full")⟩⟩).1.updateStatus.error =
      .strVal ("Disk full") ∧
    (catchBlock ⟨.updating, ⟨true, 40, "u", .boolVal false⟩⟩).1.updateStatus.error =
      .strVal ("Update failed") :=
  ⟨(C4_failure_path.1 parseStatusJson envExitFailDemo gDemo (by decide)).1,
   (C4_failure_path.1 parseStatusJson envExitFailDemo gDemo (by decide)).2.2.2.2.2,
   C4_failure_path.2.1 ⟨.updating, ⟨true, 40, "u", .strVal ("Disk full")⟩⟩ (by decide),
   C4_failure_path.2.2 ⟨.updating, ⟨true, 40, "u", .boolVal false⟩⟩ (by decide)⟩

end Umbrel

namespace Umbrel

/-- Claim C5: when the fetched release metadata has no updateScript field
the attempt fails: the error is the missing-script message (set before the
throw and preserved by the catch), SystemState ends at running, the status
is no longer running, and the operation returns false. -/
theorem C5_no_update_script (pj : String → Option StatusPatch) (env : UpdateEnv)
    (g0 : GlobalState) (version notes : String)
    (h : env.latestRelease = .ok ⟨version, notes, none⟩) :
    (update pj env g0).ok = false ∧
    (update pj env g0).state.systemStatus = .running ∧
    (update pj env g0).state.updateStatus.error =
      .strVal ("No update script found") ∧
    (update pj env g0).state.updateStatus.running = false := by
  obtain ⟨lr, sf, chunks, ex⟩ := env
  subst h
  have hstate : (update pj ⟨.ok ⟨version, notes, none⟩, sf, chunks, ex⟩ g0).state =
      (catchBlock ⟨.updating,
        setUpdateStatus (setUpdateStatus g0.updateStatus startPatch) noScriptPatch⟩).1 :=
    rfl
  refine ⟨rfl, ?_, ?_, ?_⟩ <;> rw [hstate, catchBlock_state]
  simp [setUpdateStatus, noScriptPatch, ErrVal.truthy]
  decide

/-- Witness for claim C5 at a concrete metadata record without a script. -/
theorem C5_no_update_script_witness :
    (update parseStatusJson envNoScriptDemo gDemo).ok = false ∧
    (update parseStatusJson envNoScriptDemo gDemo).state.systemStatus = .running ∧
    (update parseStatusJson envNoScriptDemo gDemo).state.updateStatus.error =
      .strVal ("No update script found") :=
  ⟨(C5_no_update_script parseStatusJson envNoScriptDemo gDemo ("1.0.0") ("notes") rfl).1,
   (C5_no_update_script parseStatusJson envNoScriptDemo gDemo ("1.0.0") ("notes") rfl).2.1,
   (C5_no_update_script parseStatusJson envNoScriptDemo gDemo ("1.0.0") ("notes") rfl).2.2.1⟩

/-- Claim C7: on the success path the operation performs, in this order,
the start writes, the output handling, the write of progress 95, the stop
of the owning process, the reboot, and returns true; the final progress is
95 and no code-made progress write is 100 (the start write is 5, dot
writes never reach 100, the final write is 95). -/
theorem C7_success_path (pj : String → Option StatusPatch) (env : UpdateEnv)
    (g0 : GlobalState) (release : LatestRelease) (url body : String)
    (h1 : env.latestRelease = .ok release)
    (h2 : release.updateScript = some url)
    (h3 : env.scriptFetch = .ok body) (h4 : env.exitSuccess = true) :
    (update pj env g0).ok = true ∧
    (update pj env g0).trace =
      [.setSystem .updating, .setStatus startPatch,
       .handleOutput env.outputChunks,
       .setStatus progress95Patch, .stopUmbreld, .reboot] ∧
    (update pj env g0).state.updateStatus.progress = 95 ∧
    startPatch.progress? = some 5 ∧ progress95Patch.progress? = some 95 ∧
    (∀ d : Nat, dotProgress d ≠ 100) := by
  obtain ⟨lr, sf, chunks, ex⟩ := env
  subst h1
  subst h3
  subst h4
  obtain ⟨version, notes, script⟩ := release
  cases script with
  | none => exact absurd h2 (by simp)
  | some u =>
    refine ⟨rfl, rfl, ?_, rfl, rfl, fun d => ?_⟩
    · rfl
    · have hb : dotProgress d ≤ 95 := min_le_left _ _
      omega

/-- Witness for claim C7 at a concrete successful environment. -/
theorem C7_success_path_witness :
    (update parseStatusJson envOkDemo gDemo).ok = true ∧
    (update parseStatusJson envOkDemo gDemo).state.updateStatus.progress = 95 :=
  ⟨(C7_success_path parseStatusJson envOkDemo gDemo
      ⟨"1.0.0", "notes", some ("https://example.invalid/update.sh")⟩
      ("https://example.invalid/update.sh") ("script body") rfl rfl rfl rfl).1,
   (C7_success_path parseStatusJson envOkDemo gDemo
      ⟨"1.0.0", "notes", some ("https://example.invalid/update.sh")⟩
      ("https://example.invalid/update.sh") ("script body") rfl rfl rfl rfl).2.2.1⟩

end Umbrel
